import Mathlib

/-!
Shallow embedding of the magenta kernel ktrace trace-buffer core
(`src/kernel/lib/ktrace/ktrace.cpp`).

The C file stores its state in a static `ktrace_state_t` singleton and
exposes `ktrace_read_user`, `ktrace_control`, `ktrace_init`,
`ktrace_open` and `ktrace_name`.  Here the state is passed explicitly
and each C function becomes a pure Lean function from the pre-state
(plus the inputs the C code reads from external collaborators: the
timestamp source, the current thread id, the user-copy outcome) to its
return value and post-state.  Machine integers are modelled as `Nat`
(the cursor only grows from 64 by small positive amounts, so no
wrap-around is reachable in the scenarios the claims quantify over);
the status type `status_t`/`int` return values are modelled as `Int`
so that error codes stay distinct from byte counts.

Constants from `lib/ktrace.h`, `err.h` and `magenta/ktrace.h` are not
part of the repository snapshot (only `ktrace.cpp` is under `src/`);
they are modelled from the spec where needed, each marked
`Modelled from the spec:` in its doc comment.
-/

/-- The trace-buffer state `ktrace_state_t` (ktrace.cpp lines 32-47):
`offset` is the next-write cursor, `grpmask` the mask of enabled
groups (0 = disabled), `bufsize` the usable capacity, `marker` the
frozen extent (0 while active), `buffer` the raw byte region obtained
from the external memory manager (the C code holds only a pointer, so
the region's extent is not tracked in the state). -/
structure ktrace_state where
  offset : Nat
  grpmask : Nat
  bufsize : Nat
  marker : Nat
  buffer : List Nat
deriving DecidableEq, Inhabited

/-- Modelled from the spec: `NO_ERROR` from the missing `err.h` (success status). -/
def NO_ERROR : Int := 0

/-- Modelled from the spec: `ERR_INVALID_ARGS` from the missing `err.h`;
the spec only requires it to be an error status distinct from a
zero-byte count, which any negative value satisfies. -/
def ERR_INVALID_ARGS : Int := -10

/-- Modelled from the spec: the three recognized control action codes from the
missing `magenta/ktrace.h` header.  The exact numeric values are immaterial
to every claim; only their distinctness matters. -/
def KTRACE_ACTION_START : Nat := 1

/-- Modelled from the spec: see `KTRACE_ACTION_START`. -/
def KTRACE_ACTION_STOP : Nat := 2

/-- Modelled from the spec: see `KTRACE_ACTION_START`. -/
def KTRACE_ACTION_REWIND : Nat := 3

/-- Modelled from the spec: `KTRACE_RECSIZE` from the missing `lib/ktrace.h`,
the size of one fixed metadata slot (`ktrace_rec_32b_t`, a 16-byte header
plus four 32-bit payload words). -/
def KTRACE_RECSIZE : Nat := 32

/-- Modelled from the spec: `KTRACE_HDRSIZE` from the missing header, the
size of `ktrace_header_t` (8-byte timestamp, 4-byte tag, 4-byte
originating-context id). -/
def KTRACE_HDRSIZE : Nat := 16

/-- `KTRACE_LEN(tag)`: the record's total length recovered from the tag.
ktrace.cpp line 193 packs `(total bytes + 7) >> 3` into the low 4 bits of
the tag (`tag & 0xFFFFFFF0 | units`), so the length in bytes is the low
nibble times 8, as the spec states ("the record's total length in 8-byte
units, packed into fixed low bits of the tag value"). -/
def KTRACE_LEN (tag : Nat) : Nat := (tag % 16) * 8

/-- Modelled from the spec: `KTRACE_GRP_TO_MASK` from the missing header.
The spec describes `grpmask` only as "bitmask of enabled event groups"
set "to the requested groups", so the requested group bits are used as
the mask directly. -/
def KTRACE_GRP_TO_MASK (x : Nat) : Nat := x

/-- Modelled from the spec: `KTRACE_GRP_ALL`, the "all groups" mask used
when `Start` is given no groups; any value with all group bits set. -/
def KTRACE_GRP_ALL : Nat := 0xFFF

/-- Modelled from the spec: `TAG_VERSION`, the tag of the first reserved
metadata record (format version). -/
def TAG_VERSION : Nat := 0x00000001

/-- Modelled from the spec: `TAG_TICKS_PER_MS`, the tag of the second
reserved metadata record (timestamp conversion factor). -/
def TAG_TICKS_PER_MS : Nat := 0x00000002

/-- Modelled from the spec: `KTRACE_VERSION`, the format-version number
written into the first metadata record. -/
def KTRACE_VERSION : Nat := 0x00010000

/-- Little-endian byte image of a 32-bit store. -/
def u32bytes (x : Nat) : List Nat :=
  [x % 256, x / 256 % 256, x / 65536 % 256, x / 16777216 % 256]

/-- Little-endian byte image of a 64-bit store. -/
def u64bytes (x : Nat) : List Nat :=
  u32bytes (x % 4294967296) ++ u32bytes (x / 4294967296)

/-- Overwrite `data.length` bytes of `buf` starting at byte offset `off`
(the effect of the C stores/`memcpy` into the backing region). -/
def storeBytes (buf : List Nat) (off : Nat) (data : List Nat) : List Nat :=
  buf.take off ++ data ++ buf.drop (off + data.length)

/-- Byte image of a `ktrace_header_t` store (`hdr->ts`, `hdr->tag`,
`hdr->tid`, ktrace.cpp lines 176-178). -/
def headerBytes (ts tag tid : Nat) : List Nat :=
  u64bytes ts ++ u32bytes tag ++ u32bytes tid

/-- `ktrace_read_user` (ktrace.cpp lines 51-85).  `isNull` models
`ptr == NULL`; `copyOk` models the outcome of the external
`arch_copy_to_user`.  Returns the C return value together with the
bytes delivered to the destination. -/
def ktrace_read_user (ks : ktrace_state) (isNull : Bool) (off len : Nat)
    (copyOk : Bool) : Int × List Nat :=
  let max : Nat :=
    if ks.marker ≠ 0 then ks.marker
    else if ks.offset > ks.bufsize then ks.bufsize else ks.offset
  if isNull then (Int.ofNat max, [])
  else if off ≥ max then (0, [])
  else
    let len := if len > max - off then max - off else len
    if copyOk then (Int.ofNat len, (ks.buffer.drop off).take len)
    else (ERR_INVALID_ARGS, [])

/-- `ktrace_control` (ktrace.cpp lines 87-114).  Returns the status, the
post-state, and whether the external `ktrace_report_live_threads`
enumeration was triggered. -/
def ktrace_control (ks : ktrace_state) (action options : Nat) :
    Int × ktrace_state × Bool :=
  if action = KTRACE_ACTION_START then
    let options := KTRACE_GRP_TO_MASK options
    let ks := { ks with marker := 0 }
    let ks := { ks with grpmask :=
      if options ≠ 0 then options else KTRACE_GRP_TO_MASK KTRACE_GRP_ALL }
    (NO_ERROR, ks, true)
  else if action = KTRACE_ACTION_STOP then
    let ks := { ks with grpmask := 0 }
    let n := ks.offset
    let ks :=
      if n > ks.bufsize then { ks with marker := ks.bufsize }
      else { ks with marker := n }
    (NO_ERROR, ks, false)
  else if action = KTRACE_ACTION_REWIND then
    (NO_ERROR, { ks with offset := KTRACE_RECSIZE * 2 }, false)
  else
    (ERR_INVALID_ARGS, ks, false)

/-- The two reserved metadata records written at initialization
(ktrace.cpp lines 145-152): slot 0 carries the format version, slot 1
the ticks-per-millisecond factor split into two 32-bit halves.  The
field layout of `ktrace_rec_32b_t` follows `KTRACE_HDRSIZE`'s modelled
header shape with four payload words `a b c d`. -/
def metadataBytes (ticks : Nat) : List Nat :=
  (headerBytes 0 TAG_VERSION 0 ++ u32bytes KTRACE_VERSION ++ u32bytes 0
    ++ u32bytes 0 ++ u32bytes 0)
  ++ (headerBytes 0 TAG_TICKS_PER_MS 0 ++ u32bytes (ticks % 4294967296)
    ++ u32bytes (ticks / 4294967296 % 4294967296) ++ u32bytes 0 ++ u32bytes 0)

/-- `ktrace_init` (ktrace.cpp lines 118-160).  `mb` and `grpmask0` are the
configuration inputs; `region` is the backing byte region delivered by the
external memory manager and `ticks` the external conversion factor.
`none` models the early returns (`mb == 0`, allocation failure signalled
by `allocOk = false`) that leave the zero-initialized static state in
place. -/
def ktrace_init (mb grpmask0 : Nat) (allocOk : Bool) (region : List Nat)
    (ticks : Nat) : Option ktrace_state :=
  if mb = 0 then none
  else if ¬allocOk then none
  else
    let size := mb * (1024 * 1024)
    let buffer := storeBytes region 0 (metadataBytes ticks)
    some { offset := KTRACE_RECSIZE * 2
           grpmask := KTRACE_GRP_TO_MASK grpmask0
           bufsize := size - 256
           marker := 0
           buffer := buffer }

/-- `ktrace_open` (ktrace.cpp lines 162-180).  `ts` and `tid` are the
external timestamp and current-thread id stamped into the header.
Returns the allocated slot's start offset (the pre-increment cursor;
the C function returns the payload pointer `hdr + 1`, i.e. slot start
plus `KTRACE_HDRSIZE`) together with the post-state. -/
def ktrace_open (ks : ktrace_state) (tag ts tid : Nat) :
    Option Nat × ktrace_state :=
  if tag &&& ks.grpmask = 0 then (none, ks)
  else
    let off := ks.offset
    let ks := { ks with offset := ks.offset + KTRACE_LEN tag }
    if off ≥ ks.bufsize then
      (none, { ks with grpmask := 0 })
    else
      (some off,
       { ks with buffer := storeBytes ks.buffer off (headerBytes ts tag tid) })

/-- The payload bytes a successful `ktrace_name` writes through the
`namerec_t` view (ktrace.cpp lines 196-201): `rec->id`, `rec->arg`, the
`memcpy` of the first `len` name bytes, and the terminator
`rec->name[len] = 0`. -/
def namePayload (id arg : Nat) (name : List Nat) (len : Nat) : List Nat :=
  u32bytes id ++ u32bytes arg ++ name.take len ++ [0]

/-- C `strnlen(s, n)`: the number of bytes before the first NUL, capped
at `n`.  The caller's string is modelled as the byte list before its
terminator, so running off the end of the list is the terminator. -/
def strnlen (s : List Nat) (n : Nat) : Nat :=
  match s, n with
  | [], _ => 0
  | _, 0 => 0
  | c :: s, n + 1 => if c = 0 then 0 else 1 + strnlen s n

/-- `ktrace_name` (ktrace.cpp lines 188-202). -/
def ktrace_name (ks : ktrace_state) (tag id arg : Nat) (name : List Nat)
    (ts tid : Nat) : ktrace_state :=
  let len := strnlen name 31
  let tag := (tag &&& 0xFFFFFFF0) ||| ((KTRACE_HDRSIZE + 8 + len + 1 + 7) / 8)
  match ktrace_open ks tag ts tid with
  | (some off, ks) =>
      { ks with buffer :=
          storeBytes ks.buffer (off + KTRACE_HDRSIZE) (namePayload id arg name len) }
  | (none, ks) => ks

/-- The zero-initialized static `KTRACE_STATE` that remains in place when
`ktrace_init` bails out early. -/
def zeroState : ktrace_state :=
  { offset := 0, grpmask := 0, bufsize := 0, marker := 0, buffer := [] }

/-- States reachable from initialization (successful or failed) by any
sequence of the exported operations.  `ktrace_read_user` does not touch
the state, so it contributes no step. -/
inductive reachable : ktrace_state → Prop
  | init (mb g : Nat) (allocOk : Bool) (region : List Nat) (ticks : Nat)
      (ks : ktrace_state) (h : ktrace_init mb g allocOk region ticks = some ks) :
      reachable ks
  | initFailed : reachable zeroState
  | openStep (ks : ktrace_state) (tag ts tid : Nat) (h : reachable ks) :
      reachable (ktrace_open ks tag ts tid).2
  | nameStep (ks : ktrace_state) (tag id arg : Nat) (name : List Nat)
      (ts tid : Nat) (h : reachable ks) :
      reachable (ktrace_name ks tag id arg name ts tid)
  | controlStep (ks : ktrace_state) (action options : Nat) (h : reachable ks) :
      reachable (ktrace_control ks action options).2.1

/-- Low 4 bits of a tag built by ktrace_name's packing: ORing a value
below 16 into a tag whose low nibble was cleared leaves exactly that
value in the low nibble. -/
theorem lowNibble_or (x v : Nat) (hv : v < 16) :
    ((x &&& 0xFFFFFFF0) ||| v) % 16 = v := by
  have key : ∀ y : Nat, y &&& 15 = y % 16 := by
    intro y
    have h := Nat.and_pow_two_sub_one_eq_mod y 4
    norm_num at h
    exact h
  rw [← key, Nat.and_distrib_right, Nat.and_assoc]
  have hc : (0xFFFFFFF0 : Nat) &&& 15 = 0 := by decide
  rw [hc, Nat.and_zero, Nat.zero_or, key, Nat.mod_eq_of_lt hv]

/-- strnlen never exceeds its cap nor the string's length. -/
theorem strnlen_le (s : List Nat) (n : Nat) :
    strnlen s n ≤ n ∧ strnlen s n ≤ s.length := by
  induction s generalizing n with
  | nil => simp [strnlen]
  | cons c s ih =>
    cases n with
    | zero => simp [strnlen]
    | succ n =>
      simp only [strnlen, List.length_cons]
      split
      · omega
      · have := ih n
        omega

/-- C1 counterexample: with `offset = 90`, `bufsize = 100`, `grpmask = 1`
and a tag of record length 40 that passes the gate, the post-increment
cursor `90 + 40` reaches past `bufsize`, yet `ktrace_open` still hands
out slot 90 and leaves `grpmask` untouched: the code compares the
pre-increment cursor, not the post-increment one, against `bufsize`. -/
theorem C1_counterexample :
    (5 : Nat) &&& (ktrace_state.mk 90 1 100 0 []).grpmask ≠ 0
    ∧ (ktrace_state.mk 90 1 100 0 []).offset + KTRACE_LEN 5
        ≥ (ktrace_state.mk 90 1 100 0 []).bufsize
    ∧ (ktrace_open (ktrace_state.mk 90 1 100 0 []) 5 7 9).1 = some 90
    ∧ (ktrace_open (ktrace_state.mk 90 1 100 0 []) 5 7 9).2.grpmask = 1 := by
  decide

/-- C1 (amended): for every gate-passing call to `ktrace_open`, the cursor
is advanced by the record length; if the PRE-increment cursor reaches or
exceeds `bufsize` the call clears `grpmask` to 0 and returns no slot,
and otherwise it returns the pre-increment cursor as the slot start with
`grpmask` unchanged (such a slot may overhang past `bufsize` into the
256-byte slack the initialization reserves). -/
theorem C1_allocator (ks : ktrace_state) (tag ts tid : Nat)
    (hgate : tag &&& ks.grpmask ≠ 0) :
    (ktrace_open ks tag ts tid).2.offset = ks.offset + KTRACE_LEN tag
    ∧ (ks.offset ≥ ks.bufsize →
        (ktrace_open ks tag ts tid).1 = none
        ∧ (ktrace_open ks tag ts tid).2.grpmask = 0)
    ∧ (ks.offset < ks.bufsize →
        (ktrace_open ks tag ts tid).1 = some ks.offset
        ∧ (ktrace_open ks tag ts tid).2.grpmask = ks.grpmask) := by
  simp only [ktrace_open, if_neg hgate]
  split
  · simp_all
  · simp_all

/-- C1 witness: the amended theorem evaluated at a concrete gate-passing
call below capacity. -/
theorem C1_allocator_witness :
    (ktrace_open (ktrace_state.mk 90 1 100 0 []) 5 7 9).2.offset = 90 + KTRACE_LEN 5
    ∧ (ktrace_open (ktrace_state.mk 90 1 100 0 []) 5 7 9).1 = some 90
    ∧ (ktrace_open (ktrace_state.mk 90 1 100 0 []) 5 7 9).2.grpmask = 1 := by
  have h := C1_allocator (ktrace_state.mk 90 1 100 0 []) 5 7 9 (by decide)
  exact ⟨h.1, (h.2.2 (by decide)).1, (h.2.2 (by decide)).2⟩

/-- C2: `ktrace_read_user` uses `marker` as the readable extent when it is
non-zero and `offset` clamped to `bufsize` otherwise (the size query
returns exactly that extent); a read at or past the extent returns zero
bytes; a read below the extent delivers exactly `min len (extent - off)`
bytes of the backing buffer and reports that count, while a failing user
copy reports `ERR_INVALID_ARGS`, which differs from the zero-byte
result. -/
theorem C2_read_user_contract (ks : ktrace_state) (off len : Nat) (copyOk : Bool) :
    (ktrace_read_user ks true off len copyOk).1
      = Int.ofNat (if ks.marker ≠ 0 then ks.marker else min ks.offset ks.bufsize)
    ∧ (off ≥ (if ks.marker ≠ 0 then ks.marker else min ks.offset ks.bufsize) →
        ktrace_read_user ks false off len copyOk = (0, []))
    ∧ (off < (if ks.marker ≠ 0 then ks.marker else min ks.offset ks.bufsize) →
        (copyOk = true →
          ktrace_read_user ks false off len copyOk
            = (Int.ofNat (min len ((if ks.marker ≠ 0 then ks.marker
                    else min ks.offset ks.bufsize) - off)),
               (ks.buffer.drop off).take (min len ((if ks.marker ≠ 0 then ks.marker
                    else min ks.offset ks.bufsize) - off))))
        ∧ (copyOk = false →
            ktrace_read_user ks false off len copyOk = (ERR_INVALID_ARGS, [])
            ∧ ERR_INVALID_ARGS ≠ (0 : Int))) := by
  have hclip : ∀ a b : Nat, (if a > b then b else a) = min a b := by
    intro a b
    rw [Nat.min_def]
    split
    · split <;> omega
    · split <;> omega
  have hext : (if ks.marker ≠ 0 then ks.marker
        else if ks.offset > ks.bufsize then ks.bufsize else ks.offset)
      = (if ks.marker ≠ 0 then ks.marker else min ks.offset ks.bufsize) := by
    split
    · rfl
    · exact hclip ks.offset ks.bufsize
  simp only [ktrace_read_user]
  rw [hext]
  generalize (if ks.marker ≠ 0 then ks.marker else min ks.offset ks.bufsize) = E
  refine ⟨by simp, fun h => by simp [h], fun h => ⟨?_, ?_⟩⟩
  · intro hc
    subst hc
    have hlt : ¬ E ≤ off := by omega
    simp [hlt, hclip len (E - off)]
  · intro hc
    subst hc
    have hlt : ¬ E ≤ off := by omega
    simp [hlt]
    norm_num [ERR_INVALID_ARGS]

/-- C2 witness: the contract evaluated at a concrete stopped state with
marker 3, reading 5 bytes from offset 1. -/
theorem C2_read_user_contract_witness :
    ktrace_read_user (ktrace_state.mk 500 0 1000 3 [10, 11, 12, 13]) false 1 5 true
      = (Int.ofNat 2, [11, 12]) := by
  have h := (C2_read_user_contract (ktrace_state.mk 500 0 1000 3 [10, 11, 12, 13])
    1 5 true).2.2 (by decide) |>.1 rfl
  simpa using h

/-- C3 counterexample: from the stopped state with `marker = 300`,
`Rewind` leaves the marker in place, so the size query right after it
returns 300, not the `KTRACE_RECSIZE * 2 = 64` bytes of the two
reserved metadata slots. -/
theorem C3_counterexample :
    (ktrace_control (ktrace_state.mk 500 0 1000 300 []) KTRACE_ACTION_REWIND 0).2.1.offset
      = KTRACE_RECSIZE * 2
    ∧ (ktrace_read_user
        (ktrace_control (ktrace_state.mk 500 0 1000 300 []) KTRACE_ACTION_REWIND 0).2.1
        true 0 0 true).1 = 300
    ∧ (300 : Int) ≠ Int.ofNat (KTRACE_RECSIZE * 2) := by
  decide

/-- C3 (amended): `Rewind` atomically resets `offset` to the size of the
two reserved metadata slots and leaves `grpmask`, `marker` and the
buffer unchanged; the size query performed immediately afterwards
returns exactly that size provided `marker` is zero and the capacity
covers the metadata, while with a non-zero `marker` it returns `marker`
instead. -/
theorem C3_rewind (ks : ktrace_state) (options off len : Nat) (copyOk : Bool) :
    (ktrace_control ks KTRACE_ACTION_REWIND options).1 = NO_ERROR
    ∧ (ktrace_control ks KTRACE_ACTION_REWIND options).2.1.offset = KTRACE_RECSIZE * 2
    ∧ (ktrace_control ks KTRACE_ACTION_REWIND options).2.1.grpmask = ks.grpmask
    ∧ (ktrace_control ks KTRACE_ACTION_REWIND options).2.1.marker = ks.marker
    ∧ (ktrace_control ks KTRACE_ACTION_REWIND options).2.1.buffer = ks.buffer
    ∧ (ks.marker = 0 → KTRACE_RECSIZE * 2 ≤ ks.bufsize →
        (ktrace_read_user (ktrace_control ks KTRACE_ACTION_REWIND options).2.1
          true off len copyOk).1 = Int.ofNat (KTRACE_RECSIZE * 2))
    ∧ (ks.marker ≠ 0 →
        (ktrace_read_user (ktrace_control ks KTRACE_ACTION_REWIND options).2.1
          true off len copyOk).1 = Int.ofNat ks.marker) := by
  obtain ⟨o, g, b, m, buf⟩ := ks
  simp only [ktrace_control, ktrace_read_user, KTRACE_ACTION_START, KTRACE_ACTION_STOP,
    KTRACE_ACTION_REWIND, KTRACE_RECSIZE]
  norm_num
  constructor
  · intro hm hb
    simp [hm]
    omega
  · intro hm
    simp [hm]

/-- C3 witness: the amended theorem evaluated at an active state with
marker 0 and at a stopped state with marker 300. -/
theorem C3_rewind_witness :
    (ktrace_control (ktrace_state.mk 500 7 1000 0 []) KTRACE_ACTION_REWIND 0).2.1.offset
      = KTRACE_RECSIZE * 2
    ∧ (ktrace_read_user
        (ktrace_control (ktrace_state.mk 500 7 1000 0 []) KTRACE_ACTION_REWIND 0).2.1
        true 0 0 true).1 = Int.ofNat (KTRACE_RECSIZE * 2) := by
  have h := C3_rewind (ktrace_state.mk 500 7 1000 0 []) 0 0 0 true
  exact ⟨h.2.1, h.2.2.2.2.2.1 rfl (by decide)⟩

/-- C4: `Stop` always succeeds, clears `grpmask` to 0 and freezes
`marker` to the cursor clamped to `bufsize`, so the frozen readable
extent never exceeds `bufsize`; the cursor and the buffer are left
unchanged. -/
theorem C4_stop_freezes (ks : ktrace_state) (options : Nat) :
    (ktrace_control ks KTRACE_ACTION_STOP options).1 = NO_ERROR
    ∧ (ktrace_control ks KTRACE_ACTION_STOP options).2.1.grpmask = 0
    ∧ (ktrace_control ks KTRACE_ACTION_STOP options).2.1.marker = min ks.offset ks.bufsize
    ∧ (ktrace_control ks KTRACE_ACTION_STOP options).2.1.marker ≤ ks.bufsize
    ∧ (ktrace_control ks KTRACE_ACTION_STOP options).2.1.offset = ks.offset
    ∧ (ktrace_control ks KTRACE_ACTION_STOP options).2.1.buffer = ks.buffer := by
  obtain ⟨o, g, b, m, buf⟩ := ks
  simp only [ktrace_control, KTRACE_ACTION_START, KTRACE_ACTION_STOP, KTRACE_ACTION_REWIND]
  norm_num
  split
  all_goals simp_all
  all_goals omega

/-- C5: `Start` always succeeds, clears `marker` to 0, sets `grpmask`
to the requested group mask or to the all-groups mask when the
requested groups are zero (hence non-zero afterwards), triggers the
external live-entity enumeration, and leaves the cursor and buffer
unchanged. -/
theorem C5_start_activates (ks : ktrace_state) (options : Nat) :
    (ktrace_control ks KTRACE_ACTION_START options).1 = NO_ERROR
    ∧ (ktrace_control ks KTRACE_ACTION_START options).2.1.marker = 0
    ∧ (ktrace_control ks KTRACE_ACTION_START options).2.1.grpmask
        = (if KTRACE_GRP_TO_MASK options ≠ 0 then KTRACE_GRP_TO_MASK options
           else KTRACE_GRP_TO_MASK KTRACE_GRP_ALL)
    ∧ (ktrace_control ks KTRACE_ACTION_START options).2.1.grpmask ≠ 0
    ∧ (ktrace_control ks KTRACE_ACTION_START options).2.2 = true
    ∧ (ktrace_control ks KTRACE_ACTION_START options).2.1.offset = ks.offset
    ∧ (ktrace_control ks KTRACE_ACTION_START options).2.1.buffer = ks.buffer := by
  obtain ⟨o, g, b, m, buf⟩ := ks
  simp only [ktrace_control, KTRACE_ACTION_START, KTRACE_GRP_TO_MASK, KTRACE_GRP_ALL]
  norm_num
  split
  · simp_all
  · simp_all

/-- C4 witness: the theorem evaluated at a state whose cursor overran
the capacity, so the frozen marker is clamped. -/
theorem C4_stop_freezes_witness :
    (ktrace_control (ktrace_state.mk 1500 7 1000 0 []) KTRACE_ACTION_STOP 0).2.1.grpmask = 0
    ∧ (ktrace_control (ktrace_state.mk 1500 7 1000 0 []) KTRACE_ACTION_STOP 0).2.1.marker
        = min 1500 1000
    ∧ (ktrace_control (ktrace_state.mk 1500 7 1000 0 []) KTRACE_ACTION_STOP 0).2.1.marker
        ≤ 1000 := by
  have h := C4_stop_freezes (ktrace_state.mk 1500 7 1000 0 []) 0
  exact ⟨h.2.1, h.2.2.1, h.2.2.2.1⟩

/-- C5 witness: the theorem evaluated at a stopped state restarted with
group mask 5. -/
theorem C5_start_activates_witness :
    (ktrace_control (ktrace_state.mk 500 7 1000 4 []) KTRACE_ACTION_START 5).2.1.marker = 0
    ∧ (ktrace_control (ktrace_state.mk 500 7 1000 4 []) KTRACE_ACTION_START 5).2.1.grpmask ≠ 0
    ∧ (ktrace_control (ktrace_state.mk 500 7 1000 4 []) KTRACE_ACTION_START 5).2.2 = true := by
  have h := C5_start_activates (ktrace_state.mk 500 7 1000 4 []) 5
  exact ⟨h.2.1, h.2.2.2.1, h.2.2.2.2.1⟩

/-- C6: every action code other than Start, Stop and Rewind makes
`ktrace_control` report `ERR_INVALID_ARGS`, keep the whole state
(cursor, mask, marker, buffer) exactly as it was, and trigger no
enumeration. -/
theorem C6_unknown_action (ks : ktrace_state) (action options : Nat)
    (h1 : action ≠ KTRACE_ACTION_START) (h2 : action ≠ KTRACE_ACTION_STOP)
    (h3 : action ≠ KTRACE_ACTION_REWIND) :
    ktrace_control ks action options = (ERR_INVALID_ARGS, ks, false) := by
  simp [ktrace_control, h1, h2, h3]

/-- C6 witness: the theorem evaluated at the unrecognized action code 99. -/
theorem C6_unknown_action_witness :
    ktrace_control (ktrace_state.mk 500 7 1000 0 []) 99 5
      = (ERR_INVALID_ARGS, ktrace_state.mk 500 7 1000 0 [], false) :=
  C6_unknown_action (ktrace_state.mk 500 7 1000 0 []) 99 5
    (by decide) (by decide) (by decide)

/-- C8: a call to `ktrace_open` whose tag shares no group bits with the
current `grpmask` — in particular any tag once exhaustion has cleared
the mask to 0 — returns no slot and leaves every field of the state
exactly as it was. -/
theorem C8_gate_rejects (ks : ktrace_state) (tag ts tid : Nat)
    (h : tag &&& ks.grpmask = 0) :
    ktrace_open ks tag ts tid = (none, ks) := by
  simp [ktrace_open, h]

/-- C8 witness: the theorem evaluated at a state with the mask cleared
by exhaustion, where every tag fails the gate. -/
theorem C8_gate_rejects_witness :
    ktrace_open (ktrace_state.mk 500 0 100 0 []) 0xFF7 3 4
      = (none, ktrace_state.mk 500 0 100 0 []) :=
  C8_gate_rejects (ktrace_state.mk 500 0 100 0 []) 0xFF7 3 4 (by decide)

/-- C10: `Stop` is accepted from every state and is idempotent: the
second of two immediately consecutive Stops succeeds again and leaves
the state produced by the first one untouched. -/
theorem C10_stop_idempotent (ks : ktrace_state) (o1 o2 : Nat) :
    (ktrace_control ks KTRACE_ACTION_STOP o1).1 = NO_ERROR
    ∧ ktrace_control (ktrace_control ks KTRACE_ACTION_STOP o1).2.1 KTRACE_ACTION_STOP o2
        = (NO_ERROR, (ktrace_control ks KTRACE_ACTION_STOP o1).2.1, false) := by
  obtain ⟨o, g, b, m, buf⟩ := ks
  simp only [ktrace_control, KTRACE_ACTION_START, KTRACE_ACTION_STOP, KTRACE_ACTION_REWIND]
  norm_num
  split
  · simp_all
  · simp_all

/-- C10 witness: the idempotence theorem evaluated at a concrete active
state stopped twice. -/
theorem C10_stop_idempotent_witness :
    ktrace_control (ktrace_control (ktrace_state.mk 500 7 1000 0 []) KTRACE_ACTION_STOP 0).2.1
        KTRACE_ACTION_STOP 0
      = (NO_ERROR, (ktrace_control (ktrace_state.mk 500 7 1000 0 []) KTRACE_ACTION_STOP 0).2.1,
          false) :=
  (C10_stop_idempotent (ktrace_state.mk 500 7 1000 0 []) 0 0).2

/-- C7: `ktrace_name` truncates the name to at most 31 bytes via
`strnlen` and never reads past the input string; the packed tag's
declared record length (low nibble in 8-byte units) is a multiple of 8
and covers the header, the id/arg words, the truncated name and its
terminator; the payload actually written is exactly id, arg, the
truncated name and a terminating 0, and together with the header it
never exceeds the declared length; on a successful allocation the
record is stored at the slot's payload offset. -/
theorem C7_name_record (tag id arg : Nat) (name : List Nat) :
    strnlen name 31 ≤ 31
    ∧ strnlen name 31 ≤ name.length
    ∧ KTRACE_LEN ((tag &&& 0xFFFFFFF0)
        ||| ((KTRACE_HDRSIZE + 8 + strnlen name 31 + 1 + 7) / 8)) % 8 = 0
    ∧ KTRACE_HDRSIZE + 8 + strnlen name 31 + 1
        ≤ KTRACE_LEN ((tag &&& 0xFFFFFFF0)
            ||| ((KTRACE_HDRSIZE + 8 + strnlen name 31 + 1 + 7) / 8))
    ∧ (namePayload id arg name (strnlen name 31)).length = 8 + strnlen name 31 + 1
    ∧ (namePayload id arg name (strnlen name 31)).drop (8 + strnlen name 31) = [0]
    ∧ ((namePayload id arg name (strnlen name 31)).drop 8).take (strnlen name 31)
        = name.take (strnlen name 31)
    ∧ ∀ ks ts tid off,
        (ktrace_open ks ((tag &&& 0xFFFFFFF0)
            ||| ((KTRACE_HDRSIZE + 8 + strnlen name 31 + 1 + 7) / 8)) ts tid).1 = some off →
        (ktrace_name ks tag id arg name ts tid).buffer
          = storeBytes (ktrace_open ks ((tag &&& 0xFFFFFFF0)
                ||| ((KTRACE_HDRSIZE + 8 + strnlen name 31 + 1 + 7) / 8)) ts tid).2.buffer
              (off + KTRACE_HDRSIZE) (namePayload id arg name (strnlen name 31)) := by
  have h31 := strnlen_le name 31
  have hnib : ((tag &&& 0xFFFFFFF0) ||| ((KTRACE_HDRSIZE + 8 + strnlen name 31 + 1 + 7) / 8)) % 16
      = (KTRACE_HDRSIZE + 8 + strnlen name 31 + 1 + 7) / 8 := by
    apply lowNibble_or
    simp only [KTRACE_HDRSIZE]
    omega
  have hKL : KTRACE_LEN ((tag &&& 0xFFFFFFF0)
        ||| ((KTRACE_HDRSIZE + 8 + strnlen name 31 + 1 + 7) / 8))
      = ((KTRACE_HDRSIZE + 8 + strnlen name 31 + 1 + 7) / 8) * 8 := by
    simp only [KTRACE_LEN, hnib]
  have htl : (name.take (strnlen name 31)).length = strnlen name 31 := by
    simp only [List.length_take]
    omega
  have hsplit : namePayload id arg name (strnlen name 31)
      = (u32bytes id ++ u32bytes arg) ++ (name.take (strnlen name 31) ++ [0]) := by
    simp [namePayload]
  have hdrop8 : (namePayload id arg name (strnlen name 31)).drop 8
      = name.take (strnlen name 31) ++ [0] := by
    rw [hsplit]
    have h8 : (8 : Nat) = (u32bytes id ++ u32bytes arg).length := rfl
    rw [h8, List.drop_left]
  refine ⟨h31.1, h31.2, ?_, ?_, ?_, ?_, ?_, ?_⟩
  · rw [hKL]
    omega
  · rw [hKL]
    simp only [KTRACE_HDRSIZE]
    omega
  · rw [hsplit]
    simp [u32bytes, htl]
    omega
  · rw [← List.drop_drop, hdrop8]
    generalize hgt : List.take (strnlen name 31) name = t at htl ⊢
    rw [← htl, List.drop_left]
  · rw [hdrop8]
    generalize hgt : List.take (strnlen name 31) name = t at htl ⊢
    rw [← htl, List.take_left]
  · intro ks ts tid off h
    rcases hh : ktrace_open ks ((tag &&& 0xFFFFFFF0)
        ||| ((KTRACE_HDRSIZE + 8 + strnlen name 31 + 1 + 7) / 8)) ts tid with ⟨fst, ks1⟩
    rw [hh] at h
    simp only at h
    subst h
    simp only [ktrace_name, hh]

/-- C7 witness: the theorem evaluated on the 3-byte name `ABC` with a
successful allocation from an all-groups active state. -/
theorem C7_name_record_witness :
    strnlen [65, 66, 67] 31 ≤ 31
    ∧ (ktrace_name (ktrace_state.mk 64 0xFFF 1000 0 []) 0x30 1 2 [65, 66, 67] 5 6).buffer
      = storeBytes (ktrace_open (ktrace_state.mk 64 0xFFF 1000 0 [])
            ((0x30 &&& 0xFFFFFFF0)
              ||| ((KTRACE_HDRSIZE + 8 + strnlen [65, 66, 67] 31 + 1 + 7) / 8)) 5 6).2.buffer
          (64 + KTRACE_HDRSIZE) (namePayload 1 2 [65, 66, 67] (strnlen [65, 66, 67] 31)) := by
  have h := C7_name_record 0x30 1 2 [65, 66, 67]
  exact ⟨h.1, h.2.2.2.2.2.2.2 (ktrace_state.mk 64 0xFFF 1000 0 []) 5 6 64 (by decide)⟩

/-- ktrace_open never changes `marker` or `bufsize`. -/
theorem open_marker_bufsize (ks : ktrace_state) (tag ts tid : Nat) :
    (ktrace_open ks tag ts tid).2.marker = ks.marker
    ∧ (ktrace_open ks tag ts tid).2.bufsize = ks.bufsize := by
  simp only [ktrace_open]
  split
  · exact ⟨rfl, rfl⟩
  · split
    · exact ⟨rfl, rfl⟩
    · exact ⟨rfl, rfl⟩

/-- ktrace_name never changes `marker` or `bufsize`. -/
theorem name_marker_bufsize (ks : ktrace_state) (tag id arg : Nat)
    (name : List Nat) (ts tid : Nat) :
    (ktrace_name ks tag id arg name ts tid).marker = ks.marker
    ∧ (ktrace_name ks tag id arg name ts tid).bufsize = ks.bufsize := by
  simp only [ktrace_name]
  have h := open_marker_bufsize ks
    ((tag &&& 0xFFFFFFF0) ||| ((KTRACE_HDRSIZE + 8 + strnlen name 31 + 1 + 7) / 8)) ts tid
  rcases hh : ktrace_open ks
    ((tag &&& 0xFFFFFFF0) ||| ((KTRACE_HDRSIZE + 8 + strnlen name 31 + 1 + 7) / 8)) ts tid
    with ⟨fst, ks1⟩
  rw [hh] at h
  cases fst
  · simpa using h
  · simpa using h

/-- In every reachable state the frozen marker never exceeds the
capacity. -/
theorem reachable_marker_le (ks : ktrace_state) (h : reachable ks) :
    ks.marker ≤ ks.bufsize := by
  induction h with
  | init mb g allocOk region ticks ks h =>
    simp only [ktrace_init] at h
    split at h
    · exact absurd h (by simp)
    · split at h
      · exact absurd h (by simp)
      · obtain rfl := Option.some.inj h
        simp
  | initFailed => simp [zeroState]
  | openStep ks tag ts tid h ih =>
    have hp := open_marker_bufsize ks tag ts tid
    omega
  | nameStep ks tag id arg name ts tid h ih =>
    have hp := name_marker_bufsize ks tag id arg name ts tid
    omega
  | controlStep ks action options h ih =>
    simp only [ktrace_control]
    split
    · simp
    · split
      · split
        · simp
        · simp
          omega
      · split
        · simpa using ih
        · simpa using ih

/-- C9: in every state reachable from initialization by any sequence of
the exported operations, `marker ≤ bufsize` holds, and hence the size
query (a read with a null destination) never reports more than
`bufsize`, in the marker branch as well as in the clamped-offset
branch. -/
theorem C9_extent_bounded (ks : ktrace_state) (h : reachable ks) :
    ks.marker ≤ ks.bufsize
    ∧ ∀ off len copyOk, (ktrace_read_user ks true off len copyOk).1 ≤ (ks.bufsize : Int) := by
  have hm := reachable_marker_le ks h
  refine ⟨hm, ?_⟩
  intro off len copyOk
  simp only [ktrace_read_user, if_true, Int.ofNat_eq_coe]
  split
  · exact_mod_cast hm
  · split
    · exact_mod_cast le_refl ks.bufsize
    · next hle => exact_mod_cast Nat.le_of_not_lt hle

/-- C9 witness: the invariant evaluated at the state produced by a
successful initialization with a 1 MB request. -/
theorem C9_extent_bounded_witness :
    ((ktrace_init 1 0 true [] 1000).getD zeroState).marker
      ≤ ((ktrace_init 1 0 true [] 1000).getD zeroState).bufsize :=
  (C9_extent_bounded ((ktrace_init 1 0 true [] 1000).getD zeroState)
    (reachable.init 1 0 true [] 1000 ((ktrace_init 1 0 true [] 1000).getD zeroState) rfl)).1
